import Mathlib

/-!
Verification development for the stateful core of
`src/frontend/src/pages/FullIATestingPage.tsx` (NeuroSploit): the polling and
state-reconciliation engine of the FULL LLM PENTEST monitoring page.

The component's React state and refs are embedded as one explicit record
(`PageState`); the `poll` callback's success and failure branches become the
pure state-transition functions `pollSuccess` and `pollFailure`; the
`addToast`, `handleStart`, `handleStop` and `handleClear` callbacks become
`pushToast`, `handleStartLocal`, `handleStop` and `handleClear`; the
elapsed-time effect becomes `elapsedEffect`.  JavaScript `Set` values are
embedded as duplicate-free lists in insertion order (`jsSetOfList`), and
JavaScript string truthiness as `truthyStr`.  The polling timer handle
(`pollRef`) is embedded as the boolean `pollTimerActive`: the effect arms it,
the effect cleanup (run when the agent identifier changes or the component
unmounts) clears it, and nothing inside the `poll` body touches it.
-/

namespace NeuroSploit

/-- Constant `POLL_INTERVAL` (source line 52): normal polling cadence, ms. -/
def POLL_INTERVAL : Nat := 1500

/-- Constant `POLL_INTERVAL_ERROR` (source line 53): degraded cadence, ms. -/
def POLL_INTERVAL_ERROR : Nat := 5000

/-- Constant `TOAST_DURATION` (source line 54): toast lifetime, ms. -/
def TOAST_DURATION : Nat := 5000

/-- Constant `MAX_TOASTS` (source line 55): notification queue bound. -/
def MAX_TOASTS : Nat := 5

/-- One finding as used by the poll logic: only `id`, `severity` and `title`
are read (source lines 506-512). -/
structure AgentFinding where
  id : String
  severity : String
  title : String
deriving DecidableEq

/-- Status snapshot fields read by the stateful logic: run status, phase,
timestamps, findings list and findings count. -/
structure AgentStatus where
  status : String
  phase : Option String
  started_at : Option Int
  completed_at : Option Int
  findings : List AgentFinding
  findings_count : Nat
deriving DecidableEq

/-- Toast record (source lines 119-124). -/
structure Toast where
  id : String
  message : String
  severity : String
  timestamp : Int
deriving DecidableEq

/-- Session record persisted to local storage (source lines 574-579). -/
structure SessionRecord where
  agentId : String
  target : String
  startedAt : String
  status : String
deriving DecidableEq

/-- A notification emitted through `addToast`: message and severity. -/
abbrev Notification := String × String

/-- The component's state and refs relevant to the polling engine:
`agentId`, `status`, `isRunning`, `logs`, `error`, `reportId`,
`elapsedSeconds`, `toasts`, `newFindingIds`, `connectionLost` React state,
the `seenFindingIdsRef`, `prevPhaseRef`, `prevStatusRef`,
`consecutiveErrorsRef` refs, the polling timer handle `pollRef` (as a
boolean), and the persisted local-storage record. -/
structure PageState where
  agentId : Option String
  status : Option AgentStatus
  isRunning : Bool
  logs : List String
  error : Option String
  reportId : Option String
  elapsedSeconds : Int
  toasts : List Toast
  newFindingIds : List String
  connectionLost : Bool
  seenFindingIds : List String
  prevPhase : Option String
  prevStatus : Option String
  consecutiveErrors : Nat
  pollTimerActive : Bool
  storedSession : Option SessionRecord
deriving DecidableEq

/-- Initial component state: every `useState` initializer and ref default
(source lines 371-408). -/
def initialState : PageState :=
  { agentId := none, status := none, isRunning := false, logs := [],
    error := none, reportId := none, elapsedSeconds := 0, toasts := [],
    newFindingIds := [], connectionLost := false, seenFindingIds := [],
    prevPhase := none, prevStatus := none, consecutiveErrors := 0,
    pollTimerActive := false, storedSession := none }

/-- JavaScript string truthiness for a nullable string: truthy iff present
and non-empty. -/
def truthyStr : Option String → Bool
  | none => false
  | some s => s != ""

/-- JavaScript `String.prototype.trim`: strip whitespace from both ends. -/
def jsTrim (s : String) : String :=
  String.mk (((s.data.dropWhile Char.isWhitespace).reverse.dropWhile Char.isWhitespace).reverse)

/-- Adding one element to a JavaScript `Set` embedded as a duplicate-free
list in insertion order. -/
def jsSetInsert (l : List String) (a : String) : List String :=
  if a ∈ l then l else l ++ [a]

/-- Building a JavaScript `Set` from a list, keeping first occurrences in
insertion order (`new Set(list)`). -/
def jsSetOfList (l : List String) : List String :=
  l.foldl jsSetInsert []

/-- The finding-id list of a snapshot, `s.findings.map(f => f.id)`
(source line 506). -/
def idsOf (s : AgentStatus) : List String :=
  s.findings.map (fun f => f.id)

/-- Phase-change detection (source lines 489-492): a toast iff the previous
phase is non-null and non-empty, the current phase is non-null and non-empty,
and they differ. -/
def phaseNotifications (prevPhase curPhase : Option String) : List Notification :=
  match prevPhase, curPhase with
  | some p, some c => if p ≠ "" ∧ c ≠ "" ∧ c ≠ p then [("Phase: " ++ c, "info")] else []
  | _, _ => []

/-- Writing back the previous-phase ref, `prevPhaseRef.current = s.phase || null`
(source line 493). -/
def normPhase : Option String → Option String
  | some s => if s = "" then none else some s
  | none => none

/-- Status-transition detection (source lines 495-502): one toast for each of
the pairs running-to-completed, running-to-error, running-to-stopped. -/
def statusNotifications (prevStatus : Option String) (curStatus : String)
    (findingsCount : Nat) : List Notification :=
  if prevStatus = some "running" ∧ curStatus = "completed" then
    [("Pentest complete! " ++ toString findingsCount ++ " findings", "completed")]
  else if prevStatus = some "running" ∧ curStatus = "error" then
    [("Pentest failed", "error")]
  else if prevStatus = some "running" ∧ curStatus = "stopped" then
    [("Pentest stopped", "info")]
  else []

/-- The toast produced for one newly seen finding id (source lines 510-513):
look the finding up in the snapshot and emit severity-uppercased title. -/
def findingNotification (s : AgentStatus) (fid : String) : List Notification :=
  match s.findings.find? (fun f => f.id == fid) with
  | some f => [(f.severity.toUpper ++ ": " ++ f.title, f.severity)]
  | none => []

/-- Result of one successful status fetch inside `poll`: the updated state,
the notifications pushed (in `addToast` call order), and the `newIds` local
of source line 508 (empty when detection is skipped). -/
structure PollResult where
  state : PageState
  notifications : List Notification
  newIds : List String
deriving DecidableEq

/-- The success branch of `poll` (source lines 471-519): reset the failure
count, clear the connection-lost flag, store the snapshot, recompute the run
flag, persist the status into the stored session, run phase-change detection,
status-transition detection and new-finding detection (the latter skipped
when the seen accumulator is empty), then replace the seen accumulator with
the current snapshot's finding-id set.  The polling timer is untouched. -/
def pollSuccess (st : PageState) (s : AgentStatus) : PollResult :=
  let storedSession := match st.storedSession with
    | some sess => some { sess with status := s.status }
    | none => none
  let phNotes := phaseNotifications st.prevPhase s.phase
  let stNotes := statusNotifications st.prevStatus s.status s.findings_count
  let currentIds := jsSetOfList (idsOf s)
  let newIds :=
    if st.seenFindingIds.length > 0 then
      currentIds.filter (fun fid => decide (fid ∉ st.seenFindingIds))
    else []
  let findNotes := newIds.foldr (fun fid acc => findingNotification s fid ++ acc) []
  { state := { st with
      consecutiveErrors := 0
      connectionLost := false
      status := some s
      isRunning := s.status == "running" || s.status == "paused"
      storedSession := storedSession
      prevPhase := normPhase s.phase
      prevStatus := some s.status
      newFindingIds := if newIds.length > 0 then newIds else st.newFindingIds
      seenFindingIds := currentIds }
    notifications := phNotes ++ stNotes ++ findNotes
    newIds := newIds }

/-- The failure branch of `poll` (source lines 520-523): increment the
failure count; raise the connection-lost flag once it reaches 3. -/
def pollFailure (st : PageState) : PageState :=
  { st with
    consecutiveErrors := st.consecutiveErrors + 1
    connectionLost :=
      if st.consecutiveErrors + 1 ≥ 3 then true else st.connectionLost }

/-- The cadence decision of the polling effect (source line 533): degraded
interval once the failure count has reached 3, normal interval otherwise.
It is evaluated anew on every run of the effect (every re-arm of the timer). -/
def scheduleInterval (st : PageState) : Nat :=
  if st.consecutiveErrors ≥ 3 then POLL_INTERVAL_ERROR else POLL_INTERVAL

/-- The queue update inside `addToast` (source line 414):
`prev.slice(-(MAX_TOASTS - 1))` followed by appending the new toast. -/
def pushToast (l : List Toast) (t : Toast) : List Toast :=
  l.drop (l.length - (MAX_TOASTS - 1)) ++ [t]

/-- The synchronous prefix of `handleStart` (source lines 548-558): return
unchanged (and issue no request) when the trimmed target is falsy or the
prompt content is falsy; otherwise clear error, logs, report id, the seen
accumulator, both previous markers and the failure count, and issue the
start request (the boolean result). -/
def handleStartLocal (st : PageState) (target : String)
    (promptContent : Option String) : PageState × Bool :=
  if jsTrim target = "" ∨ truthyStr promptContent = false then (st, false)
  else
    ({ st with
        error := none
        logs := []
        reportId := none
        seenFindingIds := []
        prevPhase := none
        prevStatus := none
        consecutiveErrors := 0 }, true)

/-- `handleStop` (source lines 589-595): no-op without a truthy agent id;
otherwise the stop request is issued (boolean result); when it resolves the
run flag is cleared, and when it rejects the error is swallowed and the
state is left unchanged. -/
def handleStop (st : PageState) (stopSucceeds : Bool) : PageState × Bool :=
  if truthyStr st.agentId then
    if stopSucceeds then ({ st with isRunning := false }, true) else (st, true)
  else (st, false)

/-- `handleClear` (source lines 597-612): reset agent id, snapshot, run flag,
logs, error, report id, elapsed seconds, new-finding highlight set,
connection-lost flag, seen accumulator, both previous markers, and remove
the stored session.  Clearing the agent id also tears down the polling
effect, so the timer is cancelled.  The failure counter and the toast queue
are not touched. -/
def handleClear (st : PageState) : PageState :=
  { st with
    agentId := none
    status := none
    isRunning := false
    logs := []
    error := none
    reportId := none
    elapsedSeconds := 0
    newFindingIds := []
    connectionLost := false
    seenFindingIds := []
    prevPhase := none
    prevStatus := none
    pollTimerActive := false
    storedSession := none }

/-- The elapsed-time effect (source lines 448-462): with no snapshot or no
start timestamp, leave the previous value; while running, output
`floor((now - start) / 1000)`; otherwise freeze
`max 0 (floor(((completed ?? now) - start) / 1000))`. -/
def elapsedEffect (status : Option AgentStatus) (isRunning : Bool)
    (now : Int) (prev : Int) : Int :=
  match status with
  | none => prev
  | some s =>
    match s.started_at with
    | none => prev
    | some start =>
      if isRunning then Int.fdiv (now - start) 1000
      else max 0 (Int.fdiv (s.completed_at.getD now - start) 1000)

/-- States reached by a sequence of successful polls. -/
def pollStates (st : PageState) : List AgentStatus → List PageState
  | [] => []
  | s :: rest => (pollSuccess st s).state :: pollStates (pollSuccess st s).state rest

/-- The `newIds` list produced by each successful poll of a sequence. -/
def pollNewIdsTrace (st : PageState) : List AgentStatus → List (List String)
  | [] => []
  | s :: rest => (pollSuccess st s).newIds :: pollNewIdsTrace (pollSuccess st s).state rest

/-- Concrete finding used in counterexample traces. -/
def cexF1 : AgentFinding := { id := "f1", severity := "critical", title := "SQL Injection" }

/-- Second concrete finding used in counterexample traces. -/
def cexF2 : AgentFinding := { id := "f2", severity := "high", title := "Stored XSS" }

/-- Snapshot with findings f1 and f2 (counterexample trace, first poll). -/
def c1SnapA : AgentStatus :=
  { status := "running", phase := none, started_at := none, completed_at := none,
    findings := [cexF1, cexF2], findings_count := 2 }

/-- Snapshot where finding f1 has disappeared (counterexample trace, second poll). -/
def c1SnapB : AgentStatus :=
  { status := "running", phase := none, started_at := none, completed_at := none,
    findings := [cexF2], findings_count := 1 }

/-- Snapshot where finding f1 has reappeared (counterexample trace, third poll). -/
def c1SnapC : AgentStatus :=
  { status := "running", phase := none, started_at := none, completed_at := none,
    findings := [cexF1, cexF2], findings_count := 2 }

/-- State after polling `c1SnapA` from a fresh session. -/
def c1St1 : PageState := (pollSuccess initialState c1SnapA).state

/-- State after polling `c1SnapA` then `c1SnapB` from a fresh session. -/
def c1St2 : PageState := (pollSuccess c1St1 c1SnapB).state

/-- Snapshot used as a generic witness input. -/
def wSnap : AgentStatus :=
  { status := "running", phase := some "recon", started_at := some 0,
    completed_at := none, findings := [cexF1], findings_count := 1 }

/-- State with an armed polling timer and a running session. -/
def c2State : PageState :=
  { initialState with
    agentId := some "agent-1"
    pollTimerActive := true
    isRunning := true
    prevStatus := some "running" }

/-- Terminal snapshot reporting completion. -/
def c2Snap : AgentStatus :=
  { status := "completed", phase := some "report", started_at := some 0,
    completed_at := some 130000, findings := [], findings_count := 0 }

/-- First poll of the spec scenario: running, phase recon, no findings. -/
def c3Snap1 : AgentStatus :=
  { status := "running", phase := some "recon", started_at := some 0,
    completed_at := none, findings := [], findings_count := 0 }

/-- Second poll of the spec scenario: running, phase testing, finding f1. -/
def c3Snap2 : AgentStatus :=
  { status := "running", phase := some "testing", started_at := some 0,
    completed_at := none, findings := [{ id := "f1", severity := "high", title := "IDOR" }],
    findings_count := 1 }

/-- State after the scenario's first poll from a fresh session. -/
def c3State1 : PageState := (pollSuccess initialState c3Snap1).state

/-- State with an active agent and a running session (stop counterexample). -/
def c4State : PageState :=
  { initialState with agentId := some "agent-1", isRunning := true }

/-- State carrying two accumulated fetch failures and some session residue
(clear counterexample). -/
def c5State : PageState :=
  { initialState with
    agentId := some "agent-1"
    isRunning := true
    consecutiveErrors := 2
    seenFindingIds := ["f1"]
    prevPhase := some "recon"
    prevStatus := some "running"
    toasts := [{ id := "t1", message := "old", severity := "info", timestamp := 0 }] }

/-- Concrete toast used to build witness queues. -/
def wT (n : Nat) : Toast :=
  { id := toString n, message := "message " ++ toString n, severity := "info",
    timestamp := (n : Int) }

/-- A full queue of five toasts. -/
def wL5 : List Toast := [wT 1, wT 2, wT 3, wT 4, wT 5]

/-- Snapshot whose start timestamp lies in the future of the probe time
(elapsed-time counterexample). -/
def c9Snap : AgentStatus :=
  { status := "running", phase := some "recon", started_at := some 1000,
    completed_at := none, findings := [], findings_count := 0 }

/-! Projection lemmas for `pollSuccess` and `pollFailure`, shared by the
claim theorems below. -/

theorem pollSuccess_seenFindingIds (st : PageState) (s : AgentStatus) :
    (pollSuccess st s).state.seenFindingIds = jsSetOfList (idsOf s) := rfl

theorem pollSuccess_newIds_def (st : PageState) (s : AgentStatus) :
    (pollSuccess st s).newIds =
      if st.seenFindingIds.length > 0 then
        (jsSetOfList (idsOf s)).filter (fun fid => decide (fid ∉ st.seenFindingIds))
      else [] := rfl

theorem pollSuccess_consecutiveErrors (st : PageState) (s : AgentStatus) :
    (pollSuccess st s).state.consecutiveErrors = 0 := rfl

theorem pollSuccess_connectionLost (st : PageState) (s : AgentStatus) :
    (pollSuccess st s).state.connectionLost = false := rfl

theorem pollSuccess_pollTimerActive (st : PageState) (s : AgentStatus) :
    (pollSuccess st s).state.pollTimerActive = st.pollTimerActive := rfl

theorem pollSuccess_isRunning (st : PageState) (s : AgentStatus) :
    (pollSuccess st s).state.isRunning
      = (s.status == "running" || s.status == "paused") := rfl

theorem pollFailure_consecutiveErrors (st : PageState) :
    (pollFailure st).consecutiveErrors = st.consecutiveErrors + 1 := rfl

/-! Lemmas about the embedded JavaScript sets, used by the seen-findings
accumulator results. -/

theorem mem_jsSetInsert {l : List String} {a b : String} :
    b ∈ jsSetInsert l a ↔ b ∈ l ∨ b = a := by
  unfold jsSetInsert
  split_ifs with h
  · constructor
    · exact Or.inl
    · rintro (hb | rfl)
      · exact hb
      · exact h
  · simp [List.mem_append]

theorem mem_foldl_jsSetInsert (l : List String) (acc : List String) (b : String) :
    b ∈ l.foldl jsSetInsert acc ↔ b ∈ acc ∨ b ∈ l := by
  induction l generalizing acc with
  | nil => simp
  | cons a t ih =>
    simp only [List.foldl_cons, ih, mem_jsSetInsert, List.mem_cons]
    tauto

theorem mem_jsSetOfList {l : List String} {b : String} :
    b ∈ jsSetOfList l ↔ b ∈ l := by
  unfold jsSetOfList
  rw [mem_foldl_jsSetInsert]
  simp

theorem nodup_jsSetInsert {l : List String} (h : l.Nodup) (a : String) :
    (jsSetInsert l a).Nodup := by
  unfold jsSetInsert
  split_ifs with ha
  · exact h
  · simp [List.nodup_append, h, ha]

theorem nodup_foldl_jsSetInsert (l acc : List String) (h : acc.Nodup) :
    (l.foldl jsSetInsert acc).Nodup := by
  induction l generalizing acc with
  | nil => simpa
  | cons a t ih => exact ih _ (nodup_jsSetInsert h a)

theorem nodup_jsSetOfList (l : List String) : (jsSetOfList l).Nodup :=
  nodup_foldl_jsSetInsert l [] List.nodup_nil

theorem toFinset_jsSetOfList (l : List String) :
    (jsSetOfList l).toFinset = l.toFinset := by
  ext x
  simp [List.mem_toFinset, mem_jsSetOfList]

theorem length_jsSetOfList_le {l₁ l₂ : List String} (h : l₁ ⊆ l₂) :
    (jsSetOfList l₁).length ≤ (jsSetOfList l₂).length := by
  rw [← List.toFinset_card_of_nodup (nodup_jsSetOfList l₁),
      ← List.toFinset_card_of_nodup (nodup_jsSetOfList l₂),
      toFinset_jsSetOfList, toFinset_jsSetOfList]
  refine Finset.card_le_card (fun x hx => ?_)
  simp only [List.mem_toFinset] at hx ⊢
  exact h hx

/-! Lemmas about poll traces, used by the C1 results. -/

theorem newIds_subset (st : PageState) (s : AgentStatus) :
    ∀ fid ∈ (pollSuccess st s).newIds, fid ∈ idsOf s := by
  intro fid hf
  rw [pollSuccess_newIds_def] at hf
  split_ifs at hf with h
  · exact mem_jsSetOfList.mp (List.mem_filter.mp hf).1
  · simp at hf

theorem chain_persist (s : AgentStatus) (rest : List AgentStatus) (fid : String)
    (h : List.Chain' (fun a b => idsOf a ⊆ idsOf b) (s :: rest))
    (hfid : fid ∈ idsOf s) :
    ∀ t ∈ rest, fid ∈ idsOf t := by
  induction rest generalizing s with
  | nil => simp
  | cons t r ih =>
    intro u hu
    rw [List.chain'_cons] at h
    rcases List.mem_cons.mp hu with rfl | hu
    · exact h.1 hfid
    · exact ih t h.2 (h.1 hfid) u hu

theorem trace_avoid (snaps : List AgentStatus) (st : PageState) (fid : String)
    (hseen : fid ∈ st.seenFindingIds)
    (hall : ∀ t ∈ snaps, fid ∈ idsOf t) :
    ∀ l ∈ pollNewIdsTrace st snaps, fid ∉ l := by
  induction snaps generalizing st with
  | nil => simp [pollNewIdsTrace]
  | cons s rest ih =>
    intro l hl
    simp only [pollNewIdsTrace, List.mem_cons] at hl
    rcases hl with rfl | hl
    · rw [pollSuccess_newIds_def]
      split_ifs with h
      · intro hmem
        have hdec := (List.mem_filter.mp hmem).2
        simp only [decide_eq_true_eq] at hdec
        exact hdec hseen
      · simp
    · refine ih (pollSuccess st s).state ?_ ?_ l hl
      · rw [pollSuccess_seenFindingIds]
        exact mem_jsSetOfList.mpr (hall s (List.mem_cons_self s rest))
      · exact fun t ht => hall t (List.mem_cons_of_mem s ht)

theorem trace_pairwise (snaps : List AgentStatus) (st : PageState)
    (hmono : List.Chain' (fun a b => idsOf a ⊆ idsOf b) snaps) :
    List.Pairwise (fun l₁ l₂ => ∀ fid ∈ l₁, fid ∉ l₂) (pollNewIdsTrace st snaps) := by
  induction snaps generalizing st with
  | nil => simp [pollNewIdsTrace]
  | cons s rest ih =>
    simp only [pollNewIdsTrace]
    rw [List.pairwise_cons]
    constructor
    · intro l hl fid hfid
      have hid : fid ∈ idsOf s := newIds_subset st s fid hfid
      refine trace_avoid rest (pollSuccess st s).state fid ?_ ?_ l hl
      · rw [pollSuccess_seenFindingIds]
        exact mem_jsSetOfList.mpr hid
      · exact chain_persist s rest fid hmono hid
    · exact ih _ hmono.tail

theorem pollStates_len_chain (snaps : List AgentStatus) (st : PageState)
    (hmono : List.Chain' (fun a b => idsOf a ⊆ idsOf b) snaps)
    (hstart : ∀ s ∈ snaps.head?,
      st.seenFindingIds.length ≤ (jsSetOfList (idsOf s)).length) :
    List.Chain' (fun a b => a.seenFindingIds.length ≤ b.seenFindingIds.length)
      (st :: pollStates st snaps) := by
  induction snaps generalizing st with
  | nil => simp [pollStates]
  | cons s rest ih =>
    simp only [pollStates]
    rw [List.chain'_cons]
    constructor
    · rw [pollSuccess_seenFindingIds]
      exact hstart s (by simp)
    · refine ih (pollSuccess st s).state hmono.tail ?_
      intro s' hs'
      rw [pollSuccess_seenFindingIds]
      cases rest with
      | nil => simp at hs'
      | cons t r =>
        have ht : t = s' := by simpa using hs'
        subst ht
        exact length_jsSetOfList_le (List.chain'_cons.mp hmono).1

/-- C1 counterexample: over the successful-poll trace `c1SnapA` (findings f1
and f2), `c1SnapB` (finding f2 only), `c1SnapC` (f1 and f2 again) from a
fresh session, the accumulator shrinks from size 2 to size 1 — it is simply
replaced by the prior snapshot's finding-id set — and f1, although recorded
as seen after the first poll, is reported as new again on the third poll. -/
theorem c1_counterexample :
    c1St1.seenFindingIds.length = 2 ∧ c1St2.seenFindingIds.length = 1 ∧
    "f1" ∈ c1St1.seenFindingIds ∧ "f1" ∈ (pollSuccess c1St2 c1SnapC).newIds := by
  decide

/-- C1 amended: the accumulator is replaced by each snapshot's finding-id set
rather than growing monotonically; therefore, provided the snapshots'
finding-id sets themselves never drop an identifier (each poll's set contains
the previous poll's), the accumulator is monotonically non-decreasing in size
across one session and no finding identifier is ever reported as new on two
different polls. -/
theorem c1_amended (snaps : List AgentStatus)
    (hmono : List.Chain' (fun a b => idsOf a ⊆ idsOf b) snaps) :
    List.Chain' (fun a b => a.seenFindingIds.length ≤ b.seenFindingIds.length)
      (initialState :: pollStates initialState snaps) ∧
    List.Pairwise (fun l₁ l₂ => ∀ fid ∈ l₁, fid ∉ l₂)
      (pollNewIdsTrace initialState snaps) :=
  ⟨pollStates_len_chain snaps initialState hmono (fun s _ => by simp [initialState]),
   trace_pairwise snaps initialState hmono⟩

/-- Witness for C1 amended on a concrete two-snapshot monotone trace. -/
theorem c1_amended_witness :
    List.Chain' (fun a b => a.seenFindingIds.length ≤ b.seenFindingIds.length)
      (initialState :: pollStates initialState [c1SnapB, c1SnapA]) ∧
    List.Pairwise (fun l₁ l₂ => ∀ fid ∈ l₁, fid ∉ l₂)
      (pollNewIdsTrace initialState [c1SnapB, c1SnapA]) :=
  c1_amended [c1SnapB, c1SnapA]
    (List.chain'_cons.mpr ⟨by decide, List.chain'_singleton _⟩)

/-- C3 counterexample: in the spec's fresh-session scenario (first poll
running/recon/no findings, second poll running/testing/finding f1), the
second poll emits only the phase-transition notification and no new-finding
notification for f1: the accumulator base is still empty after a first poll
with no findings, so new-finding detection is skipped again. -/
theorem c3_counterexample :
    (pollSuccess c3State1 c3Snap2).notifications = [("Phase: testing", "info")] ∧
    (pollSuccess c3State1 c3Snap2).newIds = [] := by
  decide

/-- C3 amended: the scenario's first poll emits no notification, its second
poll emits exactly one phase-transition notification and zero new-finding
notifications, because new-finding detection is skipped on every successful
poll whose accumulator base is empty — not only on the very first snapshot. -/
theorem c3_amended (st : PageState) (s : AgentStatus)
    (h : st.seenFindingIds = []) :
    (pollSuccess initialState c3Snap1).notifications = [] ∧
    (pollSuccess c3State1 c3Snap2).notifications = [("Phase: testing", "info")] ∧
    (pollSuccess st s).newIds = [] := by
  refine ⟨by decide, by decide, ?_⟩
  rw [pollSuccess_newIds_def, h]
  simp

/-- Witness for C3 amended at a concrete empty-accumulator state. -/
theorem c3_amended_witness :
    (pollSuccess initialState c3Snap1).notifications = [] ∧
    (pollSuccess c3State1 c3Snap2).notifications = [("Phase: testing", "info")] ∧
    (pollSuccess initialState c3Snap2).newIds = [] :=
  c3_amended initialState c3Snap2 rfl

/-- C2 counterexample: a running session with an armed polling timer receives
a snapshot whose status is the terminal value "completed"; the poll handler
marks the run inactive but leaves the polling timer armed, so further fetch
cycles are still issued — the claim said the timer is cancelled. -/
theorem c2_counterexample :
    c2Snap.status = "completed" ∧
    (pollSuccess c2State c2Snap).state.pollTimerActive = true ∧
    (pollSuccess c2State c2Snap).state.isRunning = false :=
  ⟨rfl, rfl, by decide⟩

/-- C2 amended: a successfully fetched terminal snapshot (completed, error or
stopped) clears the run flag, but the poll handler never touches the polling
timer; the timer is cancelled only by the effect teardown, e.g. when the
session is cleared. -/
theorem c2_amended (st : PageState) (s : AgentStatus) :
    (pollSuccess st s).state.pollTimerActive = st.pollTimerActive ∧
    ((s.status = "completed" ∨ s.status = "error" ∨ s.status = "stopped") →
      (pollSuccess st s).state.isRunning = false) ∧
    (handleClear st).pollTimerActive = false := by
  refine ⟨rfl, ?_, rfl⟩
  rintro (h | h | h) <;> rw [pollSuccess_isRunning, h] <;> rfl

/-- Witness for C2 amended at a concrete terminal snapshot. -/
theorem c2_amended_witness :
    (pollSuccess c2State c2Snap).state.pollTimerActive = c2State.pollTimerActive ∧
    (pollSuccess c2State c2Snap).state.isRunning = false ∧
    (handleClear c2State).pollTimerActive = false :=
  ⟨(c2_amended c2State c2Snap).1, (c2_amended c2State c2Snap).2.1 (Or.inl rfl),
   (c2_amended c2State c2Snap).2.2⟩

/-- C4 counterexample: with an active agent id, a stop command whose remote
request fails leaves the local run flag set — the claim said the flag is
marked inactive regardless of the request's outcome.  The request is issued
(second conjunct) and the failure is swallowed. -/
theorem c4_counterexample :
    (handleStop c4State false).1.isRunning = true ∧
    (handleStop c4State false).2 = true := by decide

/-- C4 amended: with a truthy agent id the stop request is always issued;
when it succeeds the run flag is cleared, and when it fails the failure is
swallowed and the whole state (the run flag included) is left unchanged. -/
theorem c4_amended (st : PageState) (h : truthyStr st.agentId = true) :
    (handleStop st true).1 = { st with isRunning := false } ∧
    (handleStop st true).2 = true ∧
    (handleStop st false).1 = st ∧ (handleStop st false).2 = true := by
  simp [handleStop, h]

/-- Witness for C4 amended at a concrete active session. -/
theorem c4_amended_witness :
    (handleStop c4State true).1 = { c4State with isRunning := false } ∧
    (handleStop c4State true).2 = true ∧
    (handleStop c4State false).1 = c4State ∧ (handleStop c4State false).2 = true :=
  c4_amended c4State rfl

/-- C5 counterexample: clearing a session that had accumulated 2 consecutive
fetch failures leaves the failure count at 2 — the claim said clearing resets
it to its initial value 0. -/
theorem c5_counterexample : (handleClear c5State).consecutiveErrors = 2 := rfl

/-- C5 amended: clearing resets the seen-findings accumulator, the
previous-phase marker, the previous-status marker and the connection-lost
flag, but leaves the consecutive-failure count unchanged; a subsequent start
(with a non-empty target and loaded prompt) nonetheless behaves identically
to a first-ever start — up to the still-displayed toast queue — because the
start command itself resets the accumulator, both markers and the failure
count. -/
theorem c5_amended (st : PageState) (target : String) (pc : Option String)
    (ht : ¬ jsTrim target = "") (hp : truthyStr pc = true) :
    (handleClear st).seenFindingIds = [] ∧ (handleClear st).prevPhase = none ∧
    (handleClear st).prevStatus = none ∧ (handleClear st).connectionLost = false ∧
    (handleClear st).consecutiveErrors = st.consecutiveErrors ∧
    (handleStartLocal (handleClear st) target pc).1 =
      { (handleStartLocal initialState target pc).1 with toasts := st.toasts } := by
  have hcond : ¬ (jsTrim target = "" ∨ truthyStr pc = false) := by simp [ht, hp]
  refine ⟨rfl, rfl, rfl, rfl, rfl, ?_⟩
  unfold handleStartLocal
  rw [if_neg hcond, if_neg hcond]
  rfl

/-- Witness for C5 amended at a concrete dirty session. -/
theorem c5_amended_witness :
    (handleClear c5State).seenFindingIds = [] ∧ (handleClear c5State).prevPhase = none ∧
    (handleClear c5State).prevStatus = none ∧ (handleClear c5State).connectionLost = false ∧
    (handleClear c5State).consecutiveErrors = c5State.consecutiveErrors ∧
    (handleStartLocal (handleClear c5State) "example.com" (some "prompt")).1 =
      { (handleStartLocal initialState "example.com" (some "prompt")).1 with
        toasts := c5State.toasts } :=
  c5_amended c5State "example.com" (some "prompt") (by decide) rfl

/-- C6: every push leaves the notification queue with at most `MAX_TOASTS`
(five) entries, and a push onto a full queue of five appends the new toast
and drops exactly the oldest entry, preserving the order of the rest. -/
theorem c6_queue_bound (l : List Toast) (t : Toast) :
    (pushToast l t).length ≤ MAX_TOASTS ∧
    (l.length = MAX_TOASTS → pushToast l t = l.tail ++ [t]) := by
  constructor
  · simp only [pushToast, List.length_append, List.length_drop,
      List.length_singleton, MAX_TOASTS]
    omega
  · intro h
    simp [pushToast, MAX_TOASTS, h, List.drop_one]

/-- Witness for C6 at a full queue of five toasts. -/
theorem c6_queue_bound_witness :
    (pushToast wL5 (wT 6)).length ≤ MAX_TOASTS ∧
    pushToast wL5 (wT 6) = wL5.tail ++ [wT 6] :=
  ⟨(c6_queue_bound wL5 (wT 6)).1, (c6_queue_bound wL5 (wT 6)).2 rfl⟩

/-- C7: after three consecutive status-fetch failures the cadence decision
yields the degraded interval 5000 ms (and the connection-lost flag is up, so
the timer is re-armed with it), and after any subsequent successful fetch the
next cadence decision yields the normal interval 1500 ms again (and the flag
is cleared) — the choice is re-evaluated, not fixed once. -/
theorem c7_cadence (st : PageState) (s : AgentStatus) :
    scheduleInterval (pollFailure (pollFailure (pollFailure st))) = 5000 ∧
    (pollFailure (pollFailure (pollFailure st))).connectionLost = true ∧
    scheduleInterval (pollSuccess (pollFailure (pollFailure (pollFailure st))) s).state = 1500 ∧
    (pollSuccess (pollFailure (pollFailure (pollFailure st))) s).state.connectionLost = false := by
  have he : (pollFailure (pollFailure (pollFailure st))).consecutiveErrors
      = st.consecutiveErrors + 1 + 1 + 1 := rfl
  refine ⟨?_, ?_, ?_, rfl⟩
  · unfold scheduleInterval
    rw [he, if_pos (by omega)]
    rfl
  · have h2 : (pollFailure (pollFailure st)).consecutiveErrors
        = st.consecutiveErrors + 1 + 1 := rfl
    show (if (pollFailure (pollFailure st)).consecutiveErrors + 1 ≥ 3 then true
        else (pollFailure (pollFailure st)).connectionLost) = true
    rw [if_pos (by omega)]
  · unfold scheduleInterval
    rw [pollSuccess_consecutiveErrors, if_neg (by omega)]
    rfl

/-- C8: the status-transition rule emits exactly one notification for each of
the pairs running-to-completed, running-to-error and running-to-stopped, and
zero notifications for every other pair of previous and current status —
including the first snapshot, where the previous status is `none`. -/
theorem c8_status_transition_pairs (prev : Option String) (cur : String) (n : Nat) :
    (statusNotifications prev cur n).length =
      if prev = some "running" ∧ (cur = "completed" ∨ cur = "error" ∨ cur = "stopped")
      then 1 else 0 := by
  unfold statusNotifications
  split_ifs with h1 h2 h3 h4 <;> simp_all

/-- C9 counterexample: while running with a start timestamp 1000 ms in the
future of the probe time, the elapsed-time output is negative — the claim
said the output is non-negative even while the run is active. -/
theorem c9_counterexample : elapsedEffect (some c9Snap) true 0 0 < 0 := by decide

/-- C9 amended: the elapsed-time output is an integer count of seconds; the
frozen (not-running) branch is clamped at zero and is always non-negative,
while the running branch is unclamped and is non-negative exactly when the
current time is at or after the start timestamp. -/
theorem c9_amended (s : AgentStatus) (start now prev : Int)
    (hs : s.started_at = some start) :
    (start ≤ now → 0 ≤ elapsedEffect (some s) true now prev) ∧
    0 ≤ elapsedEffect (some s) false now prev := by
  constructor
  · intro h
    simp only [elapsedEffect, hs, if_true]
    exact Int.fdiv_nonneg (by omega) (by omega)
  · simp only [elapsedEffect, hs, if_false]
    exact le_max_left 0 _

/-- Witness for C9 amended at a concrete running snapshot. -/
theorem c9_amended_witness :
    0 ≤ elapsedEffect (some wSnap) true 5000 0 ∧
    0 ≤ elapsedEffect (some wSnap) false 5000 0 :=
  ⟨(c9_amended wSnap 0 5000 0 rfl).1 (by omega), (c9_amended wSnap 0 5000 0 rfl).2⟩

/-- C10: when the trimmed target is empty or the prompt content is not
loaded, the start command returns immediately: no start request is issued
and the component state is completely unchanged. -/
theorem c10_start_guard (st : PageState) (target : String) (pc : Option String)
    (h : jsTrim target = "" ∨ truthyStr pc = false) :
    handleStartLocal st target pc = (st, false) := by
  unfold handleStartLocal
  rw [if_pos h]

/-- Witness for C10 at a whitespace-only target. -/
theorem c10_start_guard_witness :
    handleStartLocal initialState "   " (some "prompt") = (initialState, false) :=
  c10_start_guard initialState "   " (some "prompt") (Or.inl (by decide))

end NeuroSploit
